import Mathlib

/-!
Verification of the Gmail Analytics backend (src/backend/main.py and
src/backend/utils/gmail_utils.py) against its specification.

The remote Gmail API, the wall clock and the Python standard library are
external to the repository; they are modelled as explicit inputs
(lists of fetched message metadata, `Except`-valued remote calls, a boolean
expiry flag) and as faithful Lean reimplementations of the exact stdlib
calls the code makes (`datetime.strptime` with the one fixed pattern,
`base64.urlsafe_b64encode`, `MIMEText` serialization).  Everything else is a
direct translation of the Python source.
-/

namespace Gmail

/-- One entry of `msg['payload']['headers']`: a name/value pair. -/
structure Header where
  name : String
  value : String
deriving Repr, DecidableEq

/-- Message metadata as consumed by `get_email_metrics` and `reply_to_email`:
the header list and `msg.get('sizeEstimate', 0)` (already defaulted to 0). -/
structure MessageMeta where
  headers : List Header
  sizeEstimate : Nat
deriving Repr, DecidableEq

/-- The header-scanning loop of gmail_utils.py lines 52-58: the variable is
overwritten on every matching header, so the LAST header with the given name
wins; `none` when no header has that name. -/
def findHeader (headers : List Header) (n : String) : Option String :=
  headers.foldl (fun acc h => if h.name = n then some h.value else acc) none

/-- Python truthiness of an optional string (`if sender:`): `None` and the
empty string are falsy. -/
def truthy : Option String → Bool
  | none => false
  | some s => s ≠ ""

/-- Splitting a character list on a separator, every occurrence, keeping
empty fields (the behaviour of `str.split(sep)` with an explicit separator;
used to model the fixed-pattern `strptime` below). -/
def splitOnChar (sep : Char) : List Char → List (List Char)
  | [] => [[]]
  | a :: rest =>
    match splitOnChar sep rest with
    | [] => if a = sep then [[], []] else [[a]]
    | x :: xs => if a = sep then [] :: x :: xs else (a :: x) :: xs

/-- `s` consists of decimal digits only and is non-empty
(the shape matched by a run of `\d` in `_strptime`). -/
def allDigits (l : List Char) : Bool :=
  !l.isEmpty && l.all Char.isDigit

/-- Numeric value of a digit list (no sign, leading zeros allowed, exactly as
`int()` applied to a digit-only group in `_strptime`). -/
def digitsToNat (l : List Char) : Nat :=
  l.foldl (fun n c => n * 10 + (c.toNat - 48)) 0

/-- The abbreviated weekday names accepted by `%a` (C locale). -/
def weekdayAbbrevs : List (List Char) :=
  [['M','o','n'], ['T','u','e'], ['W','e','d'], ['T','h','u'],
   ['F','r','i'], ['S','a','t'], ['S','u','n']]

/-- The abbreviated month names accepted by `%b` (C locale). -/
def monthAbbrevs : List (List Char) :=
  [['J','a','n'], ['F','e','b'], ['M','a','r'], ['A','p','r'],
   ['M','a','y'], ['J','u','n'], ['J','u','l'], ['A','u','g'],
   ['S','e','p'], ['O','c','t'], ['N','o','v'], ['D','e','c']]

/-- A `%z` group in its common `±HHMM` form with a UTC offset below 24 hours
(offsets of 24 hours or more make `datetime.timezone` raise). -/
def validTz (l : List Char) : Bool :=
  match l with
  | sign :: rest =>
    (sign = '+' || sign = '-') && decide (rest.length = 4) && allDigits rest &&
      decide (digitsToNat (rest.take 2) * 60 + digitsToNat (rest.drop 2) < 24 * 60)
  | [] => false

/-- Model of `datetime.strptime(date, '%a, %d %b %Y %H:%M:%S %z').hour`
(gmail_utils.py line 68): `some hour` when the string matches the fixed
pattern, `none` when `strptime` raises `ValueError`.  Field ranges follow
`_strptime`: `%d` is 1-2 digits in 1..31, `%Y` exactly 4 digits with year
at least 1, `%H` 1-2 digits in 0..23, `%M` 1-2 digits in 0..59, `%S` 1-2
digits in 0..61, `%z` as in `validTz`. -/
def strptimeHour (s : String) : Option Nat :=
  match splitOnChar ' ' s.toList with
  | [wdc, d, mon, y, hms, tz] =>
    match splitOnChar ':' hms with
    | [h, m, sec] =>
      if (wdc.dropLast ∈ weekdayAbbrevs ∧ wdc.getLast? = some ',' ∧
          allDigits d = true ∧ d.length ≤ 2 ∧
          1 ≤ digitsToNat d ∧ digitsToNat d ≤ 31 ∧
          mon ∈ monthAbbrevs ∧
          allDigits y = true ∧ y.length = 4 ∧ 1 ≤ digitsToNat y ∧
          allDigits h = true ∧ h.length ≤ 2 ∧ digitsToNat h ≤ 23 ∧
          allDigits m = true ∧ m.length ≤ 2 ∧ digitsToNat m ≤ 59 ∧
          allDigits sec = true ∧ sec.length ≤ 2 ∧ digitsToNat sec ≤ 61 ∧
          validTz tz = true) then
        some (digitsToNat h)
      else
        none
    | _ => none
  | _ => none

/-- `d[k] = d.get(k, 0) + 1` on a Python dict, modelled as an
insertion-ordered association list: an existing key keeps its position and
its value is incremented, a new key is appended with value 1. -/
def bump {α : Type} [DecidableEq α] (d : List (α × Nat)) (k : α) : List (α × Nat) :=
  if d.any (fun p => p.1 = k) then
    d.map (fun p => if p.1 = k then (p.1, p.2 + 1) else p)
  else
    d ++ [(k, 1)]

/-- The three size buckets of `email_size_distribution`. -/
inductive SizeBucket where
  | small
  | medium
  | large
deriving Repr, DecidableEq

/-- The size-bucketing chain of gmail_utils.py lines 76-81:
`if size < 1024*1024` then small, `elif size < 5*1024*1024` then medium,
`else` large. -/
def sizeBucket (size : Nat) : SizeBucket :=
  if size < 1024 * 1024 then SizeBucket.small
  else if size < 5 * 1024 * 1024 then SizeBucket.medium
  else SizeBucket.large

/-- The `email_size_distribution` counters. -/
structure SizeDist where
  small : Nat
  medium : Nat
  large : Nat
deriving Repr, DecidableEq

/-- The metrics dictionary built by `get_email_metrics`
(gmail_utils.py lines 28-38). -/
structure Metrics where
  total_emails : Nat
  senders : List (String × Nat)
  subjects : List (String × Nat)
  time_distribution : List (Nat × Nat)
  email_size_distribution : SizeDist
deriving Repr, DecidableEq

/-- Lines 60-61: `if sender:` increment the sender count (Python truthiness,
so a present but empty `From` header is skipped). -/
def sendersStep (senders : List (String × Nat)) (msg : MessageMeta) : List (String × Nat) :=
  match findHeader msg.headers ("From") with
  | some s => if s ≠ "" then bump senders s else senders
  | none => senders

/-- Lines 63-64: `if subject:` increment the subject count. -/
def subjectsStep (subjects : List (String × Nat)) (msg : MessageMeta) : List (String × Nat) :=
  match findHeader msg.headers ("Subject") with
  | some s => if s ≠ "" then bump subjects s else subjects
  | none => subjects

/-- Lines 66-72: `if date:` parse with the fixed pattern; on success increment
the hour bucket, on `ValueError` silently `pass`. -/
def tdStep (td : List (Nat × Nat)) (msg : MessageMeta) : List (Nat × Nat) :=
  match findHeader msg.headers ("Date") with
  | some d =>
    if d ≠ "" then
      match strptimeHour d with
      | some hour => bump td hour
      | none => td
    else td
  | none => td

/-- Lines 74-81: bucket `msg.get('sizeEstimate', 0)` and increment the
corresponding counter. -/
def sizeStep (dist : SizeDist) (msg : MessageMeta) : SizeDist :=
  match sizeBucket msg.sizeEstimate with
  | SizeBucket.small => { dist with small := dist.small + 1 }
  | SizeBucket.medium => { dist with medium := dist.medium + 1 }
  | SizeBucket.large => { dist with large := dist.large + 1 }

/-- The body of the `for message in messages:` loop (lines 40-81).  The four
updates of the loop body touch four distinct entries of the metrics dict, so
the iteration is their simultaneous application; `total_emails` is set before
the loop and never touched by it. -/
def processMessage (acc : Metrics) (msg : MessageMeta) : Metrics :=
  { total_emails := acc.total_emails
    senders := sendersStep acc.senders msg
    subjects := subjectsStep acc.subjects msg
    time_distribution := tdStep acc.time_distribution msg
    email_size_distribution := sizeStep acc.email_size_distribution msg }

/-- `get_email_metrics` (gmail_utils.py lines 12-83) on the success path,
parametrised by the message metadata the two remote calls return: `msgs` is
the metadata of the identifiers of the single `list` call (`maxResults=500`),
in order, each already fetched with `format='metadata'`.  `total_emails` is
`len(messages)` (line 29); the loop then folds the per-message updates. -/
def get_email_metrics (msgs : List MessageMeta) : Metrics :=
  msgs.foldl processMessage
    { total_emails := msgs.length
      senders := []
      subjects := []
      time_distribution := []
      email_size_distribution := { small := 0, medium := 0, large := 0 } }

/-- The Python comparison used at gmail_utils.py lines 94-98:
`sorted(senders.items(), key=lambda x: x[1], reverse=True)` is a stable sort
that places `a` before `b` exactly when `b`'s count is at most `a`'s. -/
def countDescLe (a b : String × Nat) : Bool :=
  decide (b.2 ≤ a.2)

/-- `get_top_senders` (gmail_utils.py lines 88-99): recompute the full
metrics, sort the sender items by count descending (stable) and keep the
first 10. -/
def get_top_senders (msgs : List MessageMeta) : List (String × Nat) :=
  ((get_email_metrics msgs).senders.mergeSort countDescLe).take 10

/-- UTF-8 encoding of one character (code points up to 4 bytes), as
`str.encode` / `Message.as_bytes()` produce. -/
def utf8Bytes (c : Char) : List Nat :=
  let n := c.toNat
  if n < 128 then [n]
  else if n < 2048 then [192 + n / 64, 128 + n % 64]
  else if n < 65536 then [224 + n / 4096, 128 + n / 64 % 64, 128 + n % 64]
  else [240 + n / 262144, 128 + n / 4096 % 64, 128 + n / 64 % 64, 128 + n % 64]

/-- The UTF-8 byte sequence of a string. -/
def strBytes (s : String) : List Nat :=
  (s.toList.map utf8Bytes).flatten

/-- Character `n` of the URL-safe base64 alphabet used by
`base64.urlsafe_b64encode` (`+` and `/` replaced by `-` and `_`). -/
def b64Char (n : Nat) : Char :=
  ("ABCDEFGHIJKLMNOPQRSTUVWXYZabcdefghijklmnopqrstuvwxyz0123456789-_").toList.getD n 'A'

/-- Standard base64 chunking of a byte list: groups of three bytes become
four alphabet characters, a trailing group of two or one is padded with
`=` or `==`. -/
def b64Chunks : List Nat → List Char
  | b1 :: b2 :: b3 :: rest =>
    let n := b1 * 65536 + b2 * 256 + b3
    b64Char (n / 262144) :: b64Char (n / 4096 % 64) :: b64Char (n / 64 % 64) ::
      b64Char (n % 64) :: b64Chunks rest
  | [b1, b2] =>
    let n := (b1 * 256 + b2) * 4
    [b64Char (n / 4096), b64Char (n / 64 % 64), b64Char (n % 64), '=']
  | [b1] =>
    let n := b1 * 16
    [b64Char (n / 64), b64Char (n % 64), '=', '=']
  | [] => []

/-- Model of stdlib `MIMEText(body)` with `message['to'] = to` and
`message['subject'] = subject`, serialized by `message.as_bytes()`
(compat32 policy, ASCII payload case): the RFC-2822 text with the three
headers `MIMEText` sets itself followed by the two added here. -/
def mimeMessage (toAddr subject body : String) : String :=
  "Content-Type: text/plain; charset=\"us-ascii\"\nMIME-Version: 1.0\n" ++
    "Content-Transfer-Encoding: 7bit\nto: " ++ toAddr ++ "\nsubject: " ++ subject ++
    "\n\n" ++ body

/-- gmail_utils.py lines 109-117: the `raw` field passed to the remote send
call, `base64.urlsafe_b64encode(message.as_bytes()).decode('utf-8')`. -/
def sendRawBody (toAddr subject body : String) : String :=
  String.mk (b64Chunks (strBytes (mimeMessage toAddr subject body)))

/-- The remote Gmail API as seen by `GmailAnalytics`: fetching one message's
metadata (`users().messages().get(...).execute()`) and submitting a raw
message (`users().messages().send(...).execute()`, returning the assigned
id).  `Except.error e` models the call raising an exception with text `e`. -/
structure GmailService where
  getMessage : String → Except String MessageMeta
  sendRaw : String → Except String String

/-- The success body of `send_email`: `{"message_id": ..., "status": "sent"}`. -/
structure SendResult where
  message_id : String
  status : String
deriving Repr, DecidableEq

/-- `send_email` (gmail_utils.py lines 106-127): build the MIME text, encode
it, submit it; wrap any failure as `Error sending email: ...`.  No field of
the request is validated locally. -/
def send_email (svc : GmailService) (toAddr subject body : String) : Except String SendResult :=
  match svc.sendRaw (sendRawBody toAddr subject body) with
  | Except.ok msgId => Except.ok { message_id := msgId, status := "sent" }
  | Except.error e => Except.error ("Error sending email: " ++ e)

/-- Python `original_subject.startswith('Re: ')`: the character sequence of
the subject begins with the exact case-sensitive four characters `Re: `. -/
def startsWithRe (s : String) : Bool :=
  ("Re: ").toList.isPrefixOf s.toList

/-- gmail_utils.py lines 149-152: prefix `Re: ` unless the subject already
starts with that exact (case-sensitive) literal. -/
def replySubject (original_subject : String) : String :=
  if ¬ (startsWithRe original_subject) then "Re: " ++ original_subject
  else original_subject

/-- The header loop of `reply_to_email` (lines 144-152): the recipient is the
last `From` value, the subject the last `Subject` value already transformed
by `replySubject`. -/
def replyHeaderScan (headers : List Header) : Option String × Option String :=
  headers.foldl
    (fun acc h =>
      if h.name = "From" then (some h.value, acc.2)
      else if h.name = "Subject" then (acc.1, some (replySubject h.value))
      else acc)
    (none, none)

/-- `reply_to_email` (gmail_utils.py lines 129-160): fetch the original
message, derive recipient and subject, fail when either is missing or empty
(Python truthiness of `if not to or not subject`), else delegate to
`send_email`; every failure is wrapped as `Error replying to email: ...`. -/
def reply_to_email (svc : GmailService) (message_id reply_body : String) :
    Except String SendResult :=
  match svc.getMessage message_id with
  | Except.error e => Except.error ("Error replying to email: " ++ e)
  | Except.ok original =>
    let scan := replyHeaderScan original.headers
    if truthy scan.1 = false ∨ truthy scan.2 = false then
      Except.error ("Error replying to email: Could not determine recipient or subject")
    else
      match send_email svc (scan.1.getD "") (scan.2.getD "") reply_body with
      | Except.ok r => Except.ok r
      | Except.error e => Except.error ("Error replying to email: " ++ e)

/-- The dictionary stored in `tokens['current_user']` (main.py lines 74-84):
the six fields copied from the exchanged credentials. -/
structure TokenData where
  token : Option String
  refresh_token : Option String
  token_uri : String
  client_id : String
  client_secret : String
  scopes : List String
deriving Repr, DecidableEq

/-- The google-auth `Credentials` object as used here: the six stored fields
plus whether the access token is expired at the time of the call (`expired`
compares the stored expiry with the wall clock, both external to this
code, so it enters the model as an input). -/
structure Credentials where
  token : Option String
  refresh_token : Option String
  token_uri : String
  client_id : String
  client_secret : String
  scopes : List String
  expired : Bool
deriving Repr, DecidableEq

/-- google-auth: `valid` is `token is not None and not expired`. -/
def Credentials.valid (c : Credentials) : Bool :=
  c.token.isSome && !c.expired

/-- main.py lines 104-111: recreate the `Credentials` object from the stored
token data. -/
def mkCredentials (td : TokenData) (expired : Bool) : Credentials :=
  { token := td.token
    refresh_token := td.refresh_token
    token_uri := td.token_uri
    client_id := td.client_id
    client_secret := td.client_secret
    scopes := td.scopes
    expired := expired }

/-- `credentials.refresh(Request())` on success: the access token is replaced
by the newly issued one and the credential is no longer expired. -/
def refreshedCredentials (c : Credentials) (newTok : String) : Credentials :=
  { c with token := some newTok, expired := false }

/-- A FastAPI `HTTPException` surfaced to the client. -/
structure HTTPError where
  status_code : Nat
  detail : String
deriving Repr, DecidableEq

/-- `get_credentials` (main.py lines 93-125).  Inputs: the content of
`tokens.get('current_user')`, whether the recreated credential is expired
now, and the outcome of a refresh call (new access token or error text).
Output: the credential handed to the endpoint together with the new stored
token data, or the `HTTPException`.  The inner 401 raised when nothing is
stored is itself caught by the `except Exception` clause and re-raised with
`detail = "Invalid credentials: " + str(e)`, where `str` of a FastAPI
`HTTPException` is `"401: No credentials found"`.  Note the fall-through:
when the credential is invalid but not refreshable (expired with no refresh
token, or token absent), no branch fires and the credential is returned
as-is. -/
def get_credentials (store : Option TokenData) (expired : Bool)
    (refreshResult : Except String String) : Except HTTPError (Credentials × TokenData) :=
  match store with
  | none =>
    Except.error { status_code := 401, detail := "Invalid credentials: 401: No credentials found" }
  | some td =>
    let credentials := mkCredentials td expired
    if credentials.valid = false then
      if credentials.expired = true ∧ truthy credentials.refresh_token = true then
        match refreshResult with
        | Except.ok newTok =>
          Except.ok (refreshedCredentials credentials newTok, { td with token := some newTok })
        | Except.error e =>
          Except.error { status_code := 401, detail := "Invalid credentials: " ++ e }
      else
        Except.ok (credentials, td)
    else
      Except.ok (credentials, td)

/-- The fields read from `service.users().getProfile(userId='me').execute()`. -/
structure Profile where
  emailAddress : Option String
  messagesTotal : Nat
  threadsTotal : Nat
deriving Repr, DecidableEq

/-- The success body of `/api/verify-token`. -/
structure VerifyResponse where
  valid : Bool
  email : Option String
  messages_total : Nat
  threads_total : Nat
deriving Repr, DecidableEq

/-- `verify_token` (main.py lines 131-146): the `Depends(get_credentials)`
dependency runs first and its `HTTPException` short-circuits the request;
only with a credential in hand is the profile call made. -/
def verify_token (store : Option TokenData) (expired : Bool)
    (refreshResult : Except String String) (profileResult : Except String Profile) :
    Except HTTPError VerifyResponse :=
  match get_credentials store expired refreshResult with
  | Except.error e => Except.error e
  | Except.ok _ =>
    match profileResult with
    | Except.ok p =>
      Except.ok { valid := true, email := p.emailAddress,
                  messages_total := p.messagesTotal, threads_total := p.threadsTotal }
    | Except.error e =>
      Except.error { status_code := 401, detail := "Token verification failed: " ++ e }

/-- `flow.credentials` after a successful `flow.fetch_token(code=code)`. -/
structure OAuthCreds where
  token : Option String
  refresh_token : Option String
  token_uri : String
  client_id : String
  client_secret : String
  scopes : List String
deriving Repr, DecidableEq

/-- main.py lines 74-81: the dictionary stored from the exchanged credentials. -/
def tokenDataOf (c : OAuthCreds) : TokenData :=
  { token := c.token
    refresh_token := c.refresh_token
    token_uri := c.token_uri
    client_id := c.client_id
    client_secret := c.client_secret
    scopes := c.scopes }

/-- The success body of the first callback handler:
`{"access_token": ..., "refresh_token": ...}`. -/
structure CallbackResponse where
  access_token : Option String
  refresh_token : Option String
deriving Repr, DecidableEq

/-- The first `/auth/google/callback` handler (main.py lines 67-91):
exchange the code (outcome `exchange`), store the full token data
(overwriting whatever `_store` held), return both tokens; on failure a 400
whose detail embeds the original error text. -/
def google_auth_callback_v1 (exchange : Except String OAuthCreds) (_store : Option TokenData) :
    Except HTTPError (CallbackResponse × Option TokenData) :=
  match exchange with
  | Except.ok credentials =>
    Except.ok ({ access_token := credentials.token, refresh_token := credentials.refresh_token },
      some (tokenDataOf credentials))
  | Except.error e =>
    Except.error { status_code := 400, detail := "Error during authentication: " ++ e }

/-- The success body of the second (shadowed) callback handler. -/
structure CallbackResponseV2 where
  access_token : Option String
deriving Repr, DecidableEq

/-- The second `/auth/google/callback` handler (main.py lines 157-167):
same exchange but stores nothing and returns only the access token.  It is
registered after the first and therefore never reached (see `dispatch`). -/
def google_auth_callback_v2 (exchange : Except String OAuthCreds) :
    Except HTTPError CallbackResponseV2 :=
  match exchange with
  | Except.ok credentials => Except.ok { access_token := credentials.token }
  | Except.error e =>
    Except.error { status_code := 400, detail := "Error during authentication: " ++ e }

/-- The eight registered GET/POST handlers of main.py, in registration
order. -/
inductive Route where
  | callbackV1
  | root
  | verifyTokenRoute
  | authGoogle
  | callbackV2
  | analytics
  | sendEmailRoute
  | replyEmailRoute
deriving Repr, DecidableEq

/-- The FastAPI route table in registration order (decorator order in
main.py: lines 67, 127, 131, 148, 157, 169, 190, 205).  The path
`/auth/google/callback` is registered twice. -/
def routeTable : List (String × Route) :=
  [("/auth/google/callback", Route.callbackV1),
   ("/", Route.root),
   ("/api/verify-token", Route.verifyTokenRoute),
   ("/auth/google", Route.authGoogle),
   ("/auth/google/callback", Route.callbackV2),
   ("/api/analytics", Route.analytics),
   ("/api/send-email", Route.sendEmailRoute),
   ("/api/reply-email", Route.replyEmailRoute)]

/-- Starlette dispatch: routes are tried in registration order and the first
whose path matches handles the request. -/
def dispatch (path : String) : Option Route :=
  (routeTable.find? (fun p => p.1 == path)).map Prod.snd

end Gmail

namespace Gmail

theorem processMessage_total (acc : Metrics) (msg : MessageMeta) :
    (processMessage acc msg).total_emails = acc.total_emails := rfl

theorem foldl_processMessage_total (msgs : List MessageMeta) :
    ∀ (init : Metrics), (msgs.foldl processMessage init).total_emails = init.total_emails := by
  induction msgs with
  | nil => intro init; rfl
  | cons m t ih =>
    intro init
    simp only [List.foldl_cons]
    rw [ih]
    rfl

/-- `total_emails` is `len(messages)`: set before the loop and never touched
by it. -/
theorem get_email_metrics_total (msgs : List MessageMeta) :
    (get_email_metrics msgs).total_emails = msgs.length := by
  unfold get_email_metrics
  rw [foldl_processMessage_total]

theorem foldl_processMessage_td (msgs : List MessageMeta) :
    ∀ (init : Metrics),
      (msgs.foldl processMessage init).time_distribution =
        msgs.foldl tdStep init.time_distribution := by
  induction msgs with
  | nil => intro init; rfl
  | cons m t ih =>
    intro init
    simp only [List.foldl_cons]
    rw [ih]
    rfl

theorem bump_keys {α : Type} [DecidableEq α] (d : List (α × Nat)) (k0 k : α)
    (hk : k ∈ (bump d k0).map Prod.fst) : k ∈ d.map Prod.fst ∨ k = k0 := by
  unfold bump at hk
  split at hk
  · rw [List.map_map] at hk
    obtain ⟨p, hp, hpk⟩ := List.mem_map.mp hk
    left
    refine List.mem_map.mpr ⟨p, hp, ?_⟩
    by_cases h1 : p.1 = k0
    · simpa [h1] using hpk
    · simpa [h1] using hpk
  · rw [List.map_append] at hk
    rcases List.mem_append.mp hk with h1 | h1
    · exact Or.inl h1
    · simp only [List.map_cons, List.map_nil, List.mem_singleton] at h1
      exact Or.inr h1

/-- Any hour the model parser returns satisfies the `%H` range check. -/
theorem strptimeHour_le_23 (s : String) (h : Nat) (hs : strptimeHour s = some h) :
    h ≤ 23 := by
  unfold strptimeHour at hs
  split at hs
  · split at hs
    · split at hs
      · rename_i hcond
        obtain ⟨_, _, _, _, _, _, _, _, _, _, _, _, hH, _⟩ := hcond
        cases hs
        exact hH
      · exact absurd hs (by simp)
    · exact absurd hs (by simp)
  · exact absurd hs (by simp)

theorem tdStep_keys (td : List (Nat × Nat)) (msg : MessageMeta)
    (h : ∀ k ∈ td.map Prod.fst, k ≤ 23) :
    ∀ k ∈ (tdStep td msg).map Prod.fst, k ≤ 23 := by
  intro k hk
  unfold tdStep at hk
  split at hk
  · rename_i d _
    split at hk
    · split at hk
      · rename_i hour hhour
        rcases bump_keys td hour k hk with h1 | h1
        · exact h k h1
        · rw [h1]
          exact strptimeHour_le_23 d hour hhour
      · exact h k hk
    · exact h k hk
  · exact h k hk

theorem foldl_tdStep_keys (msgs : List MessageMeta) :
    ∀ (td : List (Nat × Nat)), (∀ k ∈ td.map Prod.fst, k ≤ 23) →
      ∀ k ∈ (msgs.foldl tdStep td).map Prod.fst, k ≤ 23 := by
  induction msgs with
  | nil => intro td h; exact h
  | cons m t ih =>
    intro td h
    simp only [List.foldl_cons]
    exact ih (tdStep td m) (tdStep_keys td m h)

theorem replyHeaderScan_aux (headers : List Header) :
    ∀ (a b : Option String),
      (headers.foldl
        (fun acc h =>
          if h.name = "From" then (some h.value, acc.2)
          else if h.name = "Subject" then (acc.1, some (replySubject h.value))
          else acc)
        (a, Option.map replySubject b)).2 =
      Option.map replySubject
        (headers.foldl (fun acc h => if h.name = "Subject" then some h.value else acc) b) := by
  induction headers with
  | nil => intro a b; rfl
  | cons h t ih =>
    intro a b
    simp only [List.foldl_cons]
    by_cases hF : h.name = "From"
    · have hS : ¬ h.name = "Subject" := by rw [hF]; decide
      simp only [hF, hS, reduceIte]
      exact ih (some h.value) b
    · by_cases hS : h.name = "Subject"
      · simp only [hF, hS, reduceIte]
        exact ih a (some h.value)
      · simp only [hF, hS, reduceIte]
        exact ih a b

/-- The subject component of the reply-header scan is the last `Subject`
header's value transformed by `replySubject`. -/
theorem replyHeaderScan_snd (headers : List Header) :
    (replyHeaderScan headers).2 = Option.map replySubject (findHeader headers ("Subject")) := by
  have h := replyHeaderScan_aux headers none none
  exact h

/-- C2: the size-bucket boundaries the code actually implements.  The 1 MiB
boundary behaves as claimed (1,048,575 is small, 1,048,576 is medium), but at
the 5 MiB boundary the code's `size < 5*1024*1024` test sends exactly
5,242,880 to `large`, contradicting the claim (and the code's own comments,
which label large as `> 5MB`); 5,242,881 is large as claimed. -/
theorem C2_size_boundaries :
    sizeBucket 1048575 = SizeBucket.small ∧
    sizeBucket 1048576 = SizeBucket.medium ∧
    sizeBucket 5242880 = SizeBucket.large ∧
    sizeBucket 5242881 = SizeBucket.large := by
  refine ⟨?_, ?_, ?_, ?_⟩ <;> decide

/-- C4: every key of `time_distribution` is an hour in [0,23], and a message
whose `Date` header fails the fixed `strptime` pattern still counts in
`total_emails` while leaving `time_distribution` exactly as it was — the
parse failure is swallowed, no error is surfaced. -/
theorem C4_time_distribution (msgs : List MessageMeta) (m : MessageMeta) (d : String)
    (hd : findHeader m.headers ("Date") = some d) (hne : d ≠ "")
    (hfail : strptimeHour d = none) :
    (∀ k ∈ (get_email_metrics msgs).time_distribution.map Prod.fst, k ≤ 23) ∧
    (get_email_metrics (msgs ++ [m])).total_emails = msgs.length + 1 ∧
    (get_email_metrics (msgs ++ [m])).time_distribution =
      (get_email_metrics msgs).time_distribution := by
  refine ⟨?_, ?_, ?_⟩
  · intro k hk
    unfold get_email_metrics at hk
    rw [foldl_processMessage_td] at hk
    exact foldl_tdStep_keys msgs [] (by intro k hk; simp at hk) k hk
  · rw [get_email_metrics_total]
    simp
  · unfold get_email_metrics
    rw [foldl_processMessage_td, foldl_processMessage_td]
    simp only [List.foldl_append, List.foldl_cons, List.foldl_nil]
    have hstep : ∀ (td : List (Nat × Nat)), tdStep td m = td := by
      intro td
      unfold tdStep
      rw [hd]
      simp [hne, hfail]
    rw [hstep]

/-- C4 witness: a single message whose `Date` header is unparseable is
counted in `total_emails` and contributes nothing to `time_distribution`. -/
theorem C4_time_distribution_witness :
    (get_email_metrics [{ headers := [{ name := "Date", value := "nonsense" }], sizeEstimate := 0 }]).total_emails = 1 ∧
    (get_email_metrics [{ headers := [{ name := "Date", value := "nonsense" }], sizeEstimate := 0 }]).time_distribution = [] := by
  have h := C4_time_distribution []
    { headers := [{ name := "Date", value := "nonsense" }], sizeEstimate := 0 }
    "nonsense" rfl (by decide) (by decide)
  exact ⟨h.2.1, h.2.2⟩

/-- C5: the derived reply subject is the original subject prefixed with
`Re: ` unless the original already starts with the exact case-sensitive
literal `Re: `, in which case it is kept unchanged; in particular `Hello`
yields `Re: Hello`, `Re: Hello` stays unchanged and `RE: Hello` is
double-prefixed to `Re: RE: Hello`. -/
theorem C5_reply_subject :
    (∀ (headers : List Header) (s : String),
      findHeader headers ("Subject") = some s →
      (replyHeaderScan headers).2 =
        some (if startsWithRe s then s else "Re: " ++ s)) ∧
    replySubject "Hello" = "Re: Hello" ∧
    replySubject "Re: Hello" = "Re: Hello" ∧
    replySubject "RE: Hello" = "Re: RE: Hello" := by
  refine ⟨?_, by decide, by decide, by decide⟩
  intro headers s hs
  rw [replyHeaderScan_snd, hs]
  by_cases h : startsWithRe s = true
  · simp [replySubject, h]
  · simp [replySubject, h]

/-- C5 witness: a message whose last `Subject` header is `Hello` gets reply
subject `Re: Hello`. -/
theorem C5_reply_subject_witness :
    (replyHeaderScan [{ name := "Subject", value := "Hello" }]).2 = some ("Re: Hello") := by
  have h := C5_reply_subject.1 [{ name := "Subject", value := "Hello" }] "Hello" rfl
  rw [h]
  decide

/-- C6: `total_emails` equals the number of message identifiers returned by
the single list call; under the `maxResults=500` contract of that call it is
therefore bounded by 500. -/
theorem C6_total_emails (msgs : List MessageMeta) (h : msgs.length ≤ 500) :
    (get_email_metrics msgs).total_emails = msgs.length ∧
    (get_email_metrics msgs).total_emails ≤ 500 := by
  refine ⟨get_email_metrics_total msgs, ?_⟩
  rw [get_email_metrics_total]
  exact h

/-- C6 witness at a concrete one-message list. -/
theorem C6_total_emails_witness :
    (get_email_metrics [{ headers := [], sizeEstimate := 0 }]).total_emails = 1 ∧
    (get_email_metrics [{ headers := [], sizeEstimate := 0 }]).total_emails ≤ 500 := by
  exact C6_total_emails [{ headers := [], sizeEstimate := 0 }] (by decide)

/-- C7: `get_top_senders` returns at most 10 entries, sorted by count in
descending order (the stable `sorted(..., key=count, reverse=True)` followed
by `[:10]`). -/
theorem C7_top_senders (msgs : List MessageMeta) :
    (get_top_senders msgs).length ≤ 10 ∧
    (get_top_senders msgs).Pairwise (fun a b => b.2 ≤ a.2) := by
  constructor
  · unfold get_top_senders
    rw [List.length_take]
    omega
  · unfold get_top_senders
    have htrans : ∀ (a b c : String × Nat),
        countDescLe a b → countDescLe b c → countDescLe a c := by
      intro a b c hab hbc
      simp only [countDescLe, decide_eq_true_eq] at hab hbc ⊢
      omega
    have htotal : ∀ (a b : String × Nat), countDescLe a b || countDescLe b a := by
      intro a b
      simp only [countDescLe, Bool.or_eq_true, decide_eq_true_eq]
      omega
    have hs := List.sorted_mergeSort htrans htotal (get_email_metrics msgs).senders
    have hst := hs.sublist (List.take_sublist 10 _)
    exact hst.imp (by intro a b hab; simpa [countDescLe] using hab)

/-- C8: with no stored credential, `/api/verify-token` answers 401 — the
dependency raises before the handler body runs, so the outcome is the same
for every possible profile-call result (the remote provider is never
reached) and no crash occurs. -/
theorem C8_verify_token_unauthenticated (expired : Bool)
    (refreshResult : Except String String) (profileResult : Except String Profile) :
    verify_token none expired refreshResult profileResult =
      Except.error { status_code := 401, detail := "Invalid credentials: 401: No credentials found" } := rfl

/-- C1 counterexample: a stored credential whose access token is expired and
whose refresh token is absent is returned by `get_credentials` as-is (still
expired), with the store untouched — the operation does NOT fail with an
invalid-credential error as the claim states. -/
theorem C1_counterexample :
    get_credentials
      (some { token := some "tok", refresh_token := none, token_uri := "u",
              client_id := "i", client_secret := "s", scopes := [] })
      true (Except.error "refresh unavailable") =
      Except.ok
        (mkCredentials
          { token := some "tok", refresh_token := none, token_uri := "u",
            client_id := "i", client_secret := "s", scopes := [] } true,
         { token := some "tok", refresh_token := none, token_uri := "u",
           client_id := "i", client_secret := "s", scopes := [] }) := rfl

/-- C1 (amended): when the stored access token is expired and there is no
(truthy) refresh token, `get_credentials` does not fail: the refresh guard
falls through and the still-expired credential is returned with the store
unchanged; when the token is not expired the credential is returned
unchanged, as claimed. -/
theorem C1_expired_no_refresh (td : TokenData) (rr : Except String String)
    (h : truthy td.refresh_token = false) :
    get_credentials (some td) true rr = Except.ok (mkCredentials td true, td) ∧
    get_credentials (some td) false rr = Except.ok (mkCredentials td false, td) := by
  constructor
  · simp only [get_credentials]
    rw [if_pos (by simp [mkCredentials, Credentials.valid])]
    rw [if_neg (fun hc => absurd hc.2 (by simp [mkCredentials, h]))]
  · simp only [get_credentials]
    by_cases hv : (mkCredentials td false).valid = false
    · rw [if_pos hv]
      rw [if_neg (fun hc => by simp [mkCredentials] at hc)]
    · rw [if_neg hv]

/-- C1 witness: a non-expired stored credential with no refresh token is
returned unchanged. -/
theorem C1_expired_no_refresh_witness :
    get_credentials
      (some { token := some "tok", refresh_token := none, token_uri := "u",
              client_id := "i", client_secret := "s", scopes := [] })
      false (Except.error "unused") =
      Except.ok
        (mkCredentials
          { token := some "tok", refresh_token := none, token_uri := "u",
            client_id := "i", client_secret := "s", scopes := [] } false,
         { token := some "tok", refresh_token := none, token_uri := "u",
           client_id := "i", client_secret := "s", scopes := [] }) :=
  (C1_expired_no_refresh
    { token := some "tok", refresh_token := none, token_uri := "u",
      client_id := "i", client_secret := "s", scopes := [] }
    (Except.error "unused") (by decide)).2

/-- C10: a successful refresh of an expired credential with a refresh token
replaces only the `token` entry of the stored dictionary; the
`refresh_token`, `token_uri`, `client_id`, `client_secret` and `scopes`
entries are unchanged. -/
theorem C10_refresh_frame (td : TokenData) (newTok : String)
    (h : truthy td.refresh_token = true) :
    ∃ c st, get_credentials (some td) true (Except.ok newTok) = Except.ok (c, st) ∧
      st.token = some newTok ∧
      st.refresh_token = td.refresh_token ∧
      st.token_uri = td.token_uri ∧
      st.client_id = td.client_id ∧
      st.client_secret = td.client_secret ∧
      st.scopes = td.scopes := by
  refine ⟨refreshedCredentials (mkCredentials td true) newTok,
    { td with token := some newTok }, ?_, rfl, rfl, rfl, rfl, rfl, rfl⟩
  simp only [get_credentials]
  rw [if_pos (by simp [mkCredentials, Credentials.valid])]
  rw [if_pos ⟨rfl, h⟩]

/-- C10 witness at a concrete stored credential. -/
theorem C10_refresh_frame_witness :
    ∃ c st,
      get_credentials
        (some { token := some "old", refresh_token := some "r", token_uri := "u",
                client_id := "i", client_secret := "s", scopes := ["a"] })
        true (Except.ok "new") = Except.ok (c, st) ∧
      st.token = some "new" ∧ st.refresh_token = some "r" ∧ st.token_uri = "u" ∧
      st.client_id = "i" ∧ st.client_secret = "s" ∧ st.scopes = ["a"] :=
  C10_refresh_frame
    { token := some "old", refresh_token := some "r", token_uri := "u",
      client_id := "i", client_secret := "s", scopes := ["a"] }
    "new" (by decide)

/-- C3: a request to `/auth/google/callback` is dispatched to the first
registered handler (the later duplicate registration is shadowed); on a
successful exchange that handler stores the full credential in the token
store and returns a body carrying both the access and the refresh token; on
exchange failure it returns HTTP 400 with a detail embedding the underlying
failure text. -/
theorem C3_callback (exchange : Except String OAuthCreds) (store : Option TokenData) :
    dispatch "/auth/google/callback" = some Route.callbackV1 ∧
    (∀ c, exchange = Except.ok c →
      google_auth_callback_v1 exchange store =
        Except.ok ({ access_token := c.token, refresh_token := c.refresh_token },
          some (tokenDataOf c))) ∧
    (∀ e, exchange = Except.error e →
      google_auth_callback_v1 exchange store =
        Except.error { status_code := 400, detail := "Error during authentication: " ++ e }) := by
  refine ⟨by decide, ?_, ?_⟩
  · intro c hc
    rw [hc]
    rfl
  · intro e he
    rw [he]
    rfl

/-- C3 witness: one successful and one failing exchange at concrete values. -/
theorem C3_callback_witness :
    google_auth_callback_v1
      (Except.ok { token := some "at", refresh_token := some "rt", token_uri := "u",
                   client_id := "i", client_secret := "s", scopes := ["sc"] }) none =
      Except.ok ({ access_token := some "at", refresh_token := some "rt" },
        some (tokenDataOf { token := some "at", refresh_token := some "rt", token_uri := "u",
                            client_id := "i", client_secret := "s", scopes := ["sc"] })) ∧
    google_auth_callback_v1 (Except.error "invalid_grant") none =
      Except.error { status_code := 400,
                     detail := "Error during authentication: " ++ "invalid_grant" } := by
  constructor
  · exact (C3_callback (Except.ok
      { token := some "at", refresh_token := some "rt", token_uri := "u",
        client_id := "i", client_secret := "s", scopes := ["sc"] }) none).2.1 _ rfl
  · exact (C3_callback (Except.error "invalid_grant") none).2.2 "invalid_grant" rfl

/-- C9: `send_email` performs no local validation of the recipient: with an
empty recipient string the MIME message is still built and forwarded to the
remote send call, the call succeeds exactly when the remote send succeeds,
and it fails only with the remote failure wrapped. -/
theorem C9_send_email_empty_recipient (svc : GmailService) (subject body : String) :
    (∀ msgId, svc.sendRaw (sendRawBody "" subject body) = Except.ok msgId →
      send_email svc "" subject body = Except.ok { message_id := msgId, status := "sent" }) ∧
    (∀ e, svc.sendRaw (sendRawBody "" subject body) = Except.error e →
      send_email svc "" subject body = Except.error ("Error sending email: " ++ e)) := by
  constructor
  · intro msgId hr
    unfold send_email
    rw [hr]
  · intro e hr
    unfold send_email
    rw [hr]

/-- C9 witness: a remote client that accepts everything sees the
empty-recipient message and the send succeeds. -/
theorem C9_send_email_empty_recipient_witness :
    send_email
      { getMessage := fun _ => Except.error "unused", sendRaw := fun _ => Except.ok "m1" }
      "" "subj" "hello" = Except.ok { message_id := "m1", status := "sent" } :=
  (C9_send_email_empty_recipient
    { getMessage := fun _ => Except.error "unused", sendRaw := fun _ => Except.ok "m1" }
    "subj" "hello").1 "m1" rfl

end Gmail
